import Mathlib

/-!
Verification of the couple-counseling ML service (`service.py`) against its
natural-language specification.  The Python source is shallowly embedded:
pure numeric computations are translated to executable Lean functions over
`ℚ` (Python's true division on ints and floats is exact rational arithmetic
on every input exercised here), response sequences to `List ℤ`, and the
Flask `analyze` handler's model-gating control flow to explicit `Option`
matching.  Randomized synthetic-data generation is embedded only through its
deterministic kernels (the post-hoc risk-label derivation), which is all the
claims touch.
-/

namespace PMOC

/-! ## Python numeric helpers -/

/-- `np.clip(x, 0.0, 1.0)`. -/
def clip01 (q : ℚ) : ℚ := max 0 (min 1 q)

/-- Python `int(q)`: truncation toward zero. -/
def pyInt (q : ℚ) : ℤ := q.num.tdiv q.den

/-- Python `sub in s` substring test on strings. -/
def strContains (s sub : String) : Bool := decide (List.IsInfix sub.toList s.toList)

/-- Python `sum(l) / len(l)` (division by a `len` that the source guards
to be nonzero; `ℚ` division by zero yields `0`). -/
def listMean (l : List ℤ) : ℚ := ((l.map fun r => (r : ℚ)).sum) / l.length

/-- `sum((r - mean) ** 2 for r in responses) / len(responses)` from
`calculate_personalized_features_flask` (service.py:92, 105). -/
def listVariance (l : List ℤ) : ℚ :=
  ((l.map fun r => ((r : ℚ) - listMean l) ^ 2).sum) / l.length

/-! ## Personalized dynamics calculator
(`calculate_personalized_features_flask`, service.py:25-117) -/

/-- Inner helper `calculate_consistency` (service.py:88-93):
`1.0` for fewer than two responses, else `max(0, 1 - variance/4)`. -/
def calculate_consistency (responses : List ℤ) : ℚ :=
  if responses.length < 2 then 1
  else max 0 (1 - listVariance responses / 4)

/-- Per-index alignment contribution `(4 - difference) / 4` (service.py:59-60). -/
def alignTerm (p : ℤ × ℤ) : ℚ := ((4 : ℚ) - ((p.1 - p.2).natAbs : ℚ)) / 4

/-- Per-index weighted conflict contribution (service.py:67-78):
difference ≥ 2 weighs 1.0; difference = 1 weighs 0.6 for a (3,2)/(2,3)
pairing, 0.4 for a (4,3)/(3,4) pairing, 0.5 otherwise; else 0. -/
def conflictWeight (p : ℤ × ℤ) : ℚ :=
  let d := (p.1 - p.2).natAbs
  if 2 ≤ d then 1
  else if d = 1 then
    if (p.1 = 3 ∧ p.2 = 2) ∨ (p.1 = 2 ∧ p.2 = 3) then 3/5
    else if (p.1 = 4 ∧ p.2 = 3) ∨ (p.1 = 3 ∧ p.2 = 4) then 2/5
    else 1/2
  else 0

/-- The dict returned by `calculate_personalized_features_flask`
(service.py:107-117). -/
structure PersonalizedFeatures where
  alignment_score : ℚ
  conflict_ratio : ℚ
  male_avg_response : ℚ
  female_avg_response : ℚ
  male_consistency : ℚ
  female_consistency : ℚ
  power_balance : ℚ
  response_variance : ℚ
  total_conflicts : ℕ
deriving Repr, DecidableEq

/-- `calculate_personalized_features_flask` (service.py:25-117).  When both
partner sequences are nonempty they are used as given; otherwise the flat
`questionnaire_responses` list is split at its midpoint (or reused whole for
both partners when shorter than two entries).  The index loop over
`range(min(len(male), len(female)))` is embedded as a fold over
`male.zip female` (same index set; the in-loop `i < len` fallbacks to 3 are
unreachable). -/
def calculate_personalized_features_flask
    (questionnaire_responses male_responses female_responses : List ℤ) :
    PersonalizedFeatures :=
  let triple :=
    if male_responses ≠ [] ∧ female_responses ≠ [] then
      (male_responses ++ female_responses, male_responses, female_responses)
    else if 2 ≤ questionnaire_responses.length then
      let mid_point := questionnaire_responses.length / 2
      (questionnaire_responses, questionnaire_responses.take mid_point,
        questionnaire_responses.drop mid_point)
    else
      (questionnaire_responses, questionnaire_responses, questionnaire_responses)
  let all_responses := triple.1
  let m := triple.2.1
  let f := triple.2.2
  let pairs := m.zip f
  let total_questions := pairs.length
  let alignment_sum : ℚ := (pairs.map alignTerm).sum
  let conflict_count := (pairs.filter fun p => 2 ≤ (p.1 - p.2).natAbs).length
  let weighted_conflict_sum : ℚ := (pairs.map conflictWeight).sum
  let alignment_score := if 0 < total_questions then alignment_sum / total_questions else 1/2
  let conflict_ratio := if 0 < total_questions then weighted_conflict_sum / total_questions else 0
  let male_avg := if m ≠ [] then listMean m else 3
  let female_avg := if f ≠ [] then listMean f else 3
  let male_consistency := calculate_consistency m
  let female_consistency := calculate_consistency f
  let power_balance := if 0 < female_avg then male_avg / female_avg else 1
  let response_variance := if 1 < all_responses.length then listVariance all_responses else 0
  { alignment_score := alignment_score
    conflict_ratio := conflict_ratio
    male_avg_response := male_avg
    female_avg_response := female_avg
    male_consistency := male_consistency
    female_consistency := female_consistency
    power_balance := power_balance
    response_variance := response_variance
    total_conflicts := conflict_count }

/-! ## Priority tiers -/

/-- One entry of the `focus_categories` list (name, score, priority). -/
structure FocusCategory where
  name : String
  score : ℚ
  priority : String
deriving Repr, DecidableEq

/-- The 3-tier priority bucketing used for the externally-visible
`focus_categories` in `analyze` (service.py:1168-1173). -/
def priority3 (score : ℚ) : String :=
  if score > 3/5 then "High"
  else if score > 3/10 then "Moderate"
  else "Low"

/-- The 4-tier priority bucketing used inside `generate_ml_recommendations`
(service.py:959-966); its `Low` arm is unreachable under the enclosing
`score > 0.2` gate. -/
def priority4 (score : ℚ) : String :=
  if score > 7/10 then "Critical"
  else if score > 2/5 then "High"
  else if score > 1/5 then "Moderate"
  else "Low"

/-! ## Synthetic risk-label derivation -/

/-- `disagree_count / len(questionnaire_responses)`: fraction of responses
equal to 2 (service.py:373-374, 582-583, 719-720). -/
def disagreeRatio (responses : List ℤ) : ℚ :=
  ((responses.filter fun r => r = 2).length : ℚ) / responses.length

/-- Post-hoc risk label of `generate_synthetic_data` (generic mode,
service.py:581-590): thresholds 0.35 / 0.15. -/
def syntheticRiskLevelGeneric (questionnaire_responses : List ℤ) : String :=
  if disagreeRatio questionnaire_responses > 7/20 then "High"
  else if disagreeRatio questionnaire_responses > 3/20 then "Medium"
  else "Low"

/-- Post-hoc risk label of `generate_synthetic_data_based_on_real_couples`
(patterned mode, service.py:372-381): thresholds 0.3 / 0.15.  The same
label derivation is used for real couples (service.py:717-727). -/
def syntheticRiskLevelPatterned (questionnaire_responses : List ℤ) : String :=
  if disagreeRatio questionnaire_responses > 3/10 then "High"
  else if disagreeRatio questionnaire_responses > 3/20 then "Medium"
  else "Low"

/-! ## Feature vector assembly -/

/-- The demographic slice of a couple profile as consumed by the feature
assemblers (`analyze` service.py:1067-1076, training rows service.py:810-817). -/
structure CoupleProfileD where
  male_age : ℚ
  female_age : ℚ
  civil_status : String
  years_living_together : ℚ
  past_children : Bool
  children : ℚ
  education_level : ℚ
  income_level : ℚ
deriving Repr, DecidableEq

/-- The eight personalized feature values in the fixed order appended to the
feature vector (service.py:1115-1124 at inference, service.py:845-854 at
training time, where they are risk-conditioned random draws). -/
structure PersonalizedValues where
  alignment_score : ℚ
  conflict_ratio : ℚ
  male_avg_response : ℚ
  female_avg_response : ℚ
  male_consistency : ℚ
  female_consistency : ℚ
  power_balance : ℚ
  response_variance : ℚ
deriving Repr, DecidableEq

/-- The eight personalized values extracted from a computed
`PersonalizedFeatures` dict, in the order of service.py:1115-1124. -/
def PersonalizedFeatures.values (pf : PersonalizedFeatures) : PersonalizedValues :=
  { alignment_score := pf.alignment_score
    conflict_ratio := pf.conflict_ratio
    male_avg_response := pf.male_avg_response
    female_avg_response := pf.female_avg_response
    male_consistency := pf.male_consistency
    female_consistency := pf.female_consistency
    power_balance := pf.power_balance
    response_variance := pf.response_variance }

/-- Inference-time feature assembly (`analyze`, service.py:1105-1126):
six demographic fields, then the questionnaire responses, then the eight
personalized values. -/
def assemble_features_inference (profile : CoupleProfileD) (responses : List ℚ)
    (pv : PersonalizedValues) : List ℚ :=
  [profile.male_age, profile.female_age, profile.years_living_together,
    profile.children, profile.education_level, profile.income_level]
  ++ responses
  ++ [pv.alignment_score, pv.conflict_ratio, pv.male_avg_response,
      pv.female_avg_response, pv.male_consistency, pv.female_consistency,
      pv.power_balance, pv.response_variance]

/-- Training-time feature assembly (`train_ml_models`, service.py:810-856):
the per-row `features` list built from the same six demographic fields,
the row's questionnaire responses, and eight (synthetically drawn)
personalized values, in the same order. -/
def assemble_features_training (profile : CoupleProfileD) (responses : List ℚ)
    (pv : PersonalizedValues) : List ℚ :=
  let features := [profile.male_age, profile.female_age,
    profile.years_living_together, profile.children, profile.education_level,
    profile.income_level]
  let features := features ++ responses
  let personalized_features := [pv.alignment_score, pv.conflict_ratio,
    pv.male_avg_response, pv.female_avg_response, pv.male_consistency,
    pv.female_consistency, pv.power_balance, pv.response_variance]
  features ++ personalized_features

/-! ## Rule-based recommendation generator
(`generate_rule_based_recommendations`, service.py:1254-1396)

Each recommendation string is embedded as a constructor tagged with the
message template it instantiates, carrying the interpolated numeric/textual
parameters; the surrounding English text is fixed per template and plays no
role in any claim (which concern counts and order only). -/

/-- Tags for the recommendation templates of
`generate_rule_based_recommendations`, in source order. -/
inductive RB where
  | criticalAlignment (pct : ℤ)
  | significantDisagreement (pct : ℤ)
  | moderateAlignment (pct : ℤ)
  | strongAlignment (pct : ℤ)
  | excellentHarmonyOptimism (pct : ℤ)
  | goodHarmony (pct : ℤ)
  | moderateHarmony (pct : ℤ)
  | concerningHarmony (pct : ℤ)
  | highConflict (pct : ℤ)
  | moderateConflict (pct : ℤ)
  | minorConflicts (pct : ℤ)
  | excellentHarmonyConflict (pct : ℤ)
  | maleDominance (male_avg female_avg : ℚ)
  | femaleDominance (female_avg male_avg : ℚ)
  | balancedPartnership (power_balance : ℚ)
  | maleInconsistency (pct : ℤ)
  | maleUncertainty (pct : ℤ)
  | maleClarity (pct : ℤ)
  | femaleInconsistency (pct : ℤ)
  | femaleUncertainty (pct : ℤ)
  | femaleClarity (pct : ℤ)
  | malePositive (pct : ℤ)
  | maleConcerns (pct : ℤ)
  | femalePositive (pct : ℤ)
  | femaleConcerns (pct : ℤ)
  | highRiskProfile
  | crisisIntervention (pct : ℤ)
  | mediumRiskProfile
  | lowRiskProfile
  | criticalMarriageFocus (name : String) (pct : ℤ)
  | criticalFamilyPlanning (name : String) (pct : ℤ)
  | criticalHealthFocus (name : String) (pct : ℤ)
  | highMarriagePriority (name : String) (pct : ℤ)
  | highFamilyPriority (name : String) (pct : ℤ)
  | highHealthPriority (name : String) (pct : ℤ)
  | moderateMarriageFocus (name : String) (pct : ℤ)
  | moderateFamilyFocus (name : String) (pct : ℤ)
  | moderateHealthFocus (name : String) (pct : ℤ)
  | complexDynamics (variance : ℚ)
  | variedResponses (variance : ℚ)
  | balancedDiversity (variance : ℚ)
  | consistentPatterns (variance : ℚ)
deriving Repr, DecidableEq

/-- Section 1, alignment commentary (service.py:1281-1288): one entry,
chosen by an exhaustive if/elif/elif/else on `alignment_score`. -/
def alignmentRec (alignment_score : ℚ) : RB :=
  if alignment_score < 3/10 then .criticalAlignment (pyInt (alignment_score * 100))
  else if alignment_score < 1/2 then
    .significantDisagreement (pyInt ((1 - alignment_score) * 100))
  else if alignment_score < 7/10 then .moderateAlignment (pyInt (alignment_score * 100))
  else .strongAlignment (pyInt (alignment_score * 100))

/-- Section 1.5, couple-optimism commentary (service.py:1291-1298): one
entry, exhaustive branches on `couple_optimism`. -/
def optimismRec (couple_optimism : ℚ) : RB :=
  if couple_optimism > 7/10 then .excellentHarmonyOptimism (pyInt (couple_optimism * 100))
  else if couple_optimism > 1/2 then .goodHarmony (pyInt (couple_optimism * 100))
  else if couple_optimism > 3/10 then .moderateHarmony (pyInt (couple_optimism * 100))
  else .concerningHarmony (pyInt (couple_optimism * 100))

/-- Section 2, conflict commentary (service.py:1301-1308): one entry,
exhaustive branches on `conflict_ratio`. -/
def conflictRec (conflict_ratio : ℚ) : RB :=
  if conflict_ratio > 1/2 then .highConflict (pyInt (conflict_ratio * 100))
  else if conflict_ratio > 3/10 then .moderateConflict (pyInt (conflict_ratio * 100))
  else if conflict_ratio > 1/10 then .minorConflicts (pyInt (conflict_ratio * 100))
  else .excellentHarmonyConflict (pyInt (conflict_ratio * 100))

/-- Section 3, power-balance commentary (service.py:1312-1318): emitted only
for significant imbalance with low alignment, or for a balanced ratio in
[0.7, 1.3]; moderate imbalances emit nothing. -/
def powerBlock (power_balance alignment_score male_avg female_avg : ℚ) : List RB :=
  if (power_balance > 3/2 ∨ power_balance < 3/10) ∧ alignment_score < 4/5 then
    if male_avg > female_avg then [.maleDominance male_avg female_avg]
    else [.femaleDominance female_avg male_avg]
  else if 7/10 ≤ power_balance ∧ power_balance ≤ 13/10 then
    [.balancedPartnership power_balance]
  else []

/-- Section 4, male-partner consistency commentary (service.py:1323-1328):
one entry, exhaustive branches. -/
def maleConsistencyRec (male_consistency : ℚ) : RB :=
  if male_consistency < 3/10 then .maleInconsistency (pyInt (male_consistency * 100))
  else if male_consistency < 3/5 then .maleUncertainty (pyInt (male_consistency * 100))
  else .maleClarity (pyInt (male_consistency * 100))

/-- Section 4, female-partner consistency commentary (service.py:1331-1336):
one entry, exhaustive branches. -/
def femaleConsistencyRec (female_consistency : ℚ) : RB :=
  if female_consistency < 3/10 then .femaleInconsistency (pyInt (female_consistency * 100))
  else if female_consistency < 3/5 then .femaleUncertainty (pyInt (female_consistency * 100))
  else .femaleClarity (pyInt (female_consistency * 100))

/-- Section 4.5, partner positivity commentary (service.py:1339-1347):
emitted only when a partner's positive-response ratio is above 0.7 or below
0.3. -/
def positivityBlock (male_positive_ratio female_positive_ratio : ℚ) : List RB :=
  (if male_positive_ratio > 7/10 then [RB.malePositive (pyInt (male_positive_ratio * 100))]
   else if male_positive_ratio < 3/10 then [RB.maleConcerns (pyInt (male_positive_ratio * 100))]
   else [])
  ++
  (if female_positive_ratio > 7/10 then [RB.femalePositive (pyInt (female_positive_ratio * 100))]
   else if female_positive_ratio < 3/10 then [RB.femaleConcerns (pyInt (female_positive_ratio * 100))]
   else [])

/-- Section 5, risk-level commentary (service.py:1350-1357): one headline
entry always, plus a crisis entry for High risk with conflict above 0.4. -/
def riskBlock (risk_level : String) (conflict_ratio : ℚ) : List RB :=
  if risk_level = "High" then
    [RB.highRiskProfile]
    ++ (if conflict_ratio > 2/5 then [RB.crisisIntervention (pyInt (conflict_ratio * 100))] else [])
  else if risk_level = "Medium" then [RB.mediumRiskProfile]
  else [RB.lowRiskProfile]

/-- Section 6, per-category severity commentary (service.py:1360-1384):
for each focus category, at most one entry selected by score bucket
(>0.7 / >0.5 / >0.3) and a case-sensitive substring match of the category
name against Marriage / Family / Health. -/
def categoryRecs (c : FocusCategory) : List RB :=
  if c.score > 7/10 then
    if strContains c.name "Marriage" then [.criticalMarriageFocus c.name (pyInt (c.score * 100))]
    else if strContains c.name "Family" then [.criticalFamilyPlanning c.name (pyInt (c.score * 100))]
    else if strContains c.name "Health" then [.criticalHealthFocus c.name (pyInt (c.score * 100))]
    else []
  else if c.score > 1/2 then
    if strContains c.name "Marriage" then [.highMarriagePriority c.name (pyInt (c.score * 100))]
    else if strContains c.name "Family" then [.highFamilyPriority c.name (pyInt (c.score * 100))]
    else if strContains c.name "Health" then [.highHealthPriority c.name (pyInt (c.score * 100))]
    else []
  else if c.score > 3/10 then
    if strContains c.name "Marriage" then [.moderateMarriageFocus c.name (pyInt (c.score * 100))]
    else if strContains c.name "Family" then [.moderateFamilyFocus c.name (pyInt (c.score * 100))]
    else if strContains c.name "Health" then [.moderateHealthFocus c.name (pyInt (c.score * 100))]
    else []
  else []

/-- Section 7, response-variance commentary (service.py:1387-1394): one
entry, exhaustive branches on `response_variance`. -/
def varianceRec (response_variance : ℚ) : RB :=
  if response_variance > 5/2 then .complexDynamics response_variance
  else if response_variance > 3/2 then .variedResponses response_variance
  else if response_variance > 1/2 then .balancedDiversity response_variance
  else .consistentPatterns response_variance

/-- `generate_rule_based_recommendations` (service.py:1254-1396).  The
`category_scores` argument is accepted but, as in the source, never read.
The `recommendations.append(...)` sequence is embedded as list
concatenation in source order; `male_disagree_count`/`female_disagree_count`
are computed and unused exactly as in the source. -/
def generate_rule_based_recommendations (risk_level : String)
    (category_scores : List ℚ) (focus_categories : List FocusCategory)
    (pf : PersonalizedFeatures) (male_responses female_responses : List ℤ) :
    List RB :=
  let alignment_score := pf.alignment_score
  let conflict_ratio := pf.conflict_ratio
  let male_avg := pf.male_avg_response
  let female_avg := pf.female_avg_response
  let male_consistency := pf.male_consistency
  let female_consistency := pf.female_consistency
  let power_balance := pf.power_balance
  let response_variance := pf.response_variance
  let male_agree_count := (male_responses.filter fun r => 4 ≤ r).length
  let female_agree_count := (female_responses.filter fun r => 4 ≤ r).length
  let male_disagree_count := (male_responses.filter fun r => r ≤ 2).length
  let female_disagree_count := (female_responses.filter fun r => r ≤ 2).length
  let total_responses := male_responses.length
  let male_positive_ratio : ℚ :=
    if 0 < total_responses then (male_agree_count : ℚ) / total_responses else 0
  let female_positive_ratio : ℚ :=
    if 0 < total_responses then (female_agree_count : ℚ) / total_responses else 0
  let couple_optimism := (male_positive_ratio + female_positive_ratio) / 2
  let _ := male_disagree_count
  let _ := female_disagree_count
  let _ := category_scores
  [alignmentRec alignment_score]
  ++ [optimismRec couple_optimism]
  ++ [conflictRec conflict_ratio]
  ++ powerBlock power_balance alignment_score male_avg female_avg
  ++ [maleConsistencyRec male_consistency]
  ++ [femaleConsistencyRec female_consistency]
  ++ positivityBlock male_positive_ratio female_positive_ratio
  ++ riskBlock risk_level conflict_ratio
  ++ (focus_categories.map categoryRecs).flatten
  ++ [varianceRec response_variance]

/-! ## ML recommendation generator
(`generate_ml_recommendations`, service.py:933-1023) -/

/-- Tags for the recommendation templates of `generate_ml_recommendations`,
in source order. -/
inductive MLRec where
  | highPriorityMarriage
  | marriageFocus
  | parentingWithChildren (children_count : ℚ)
  | parenthoodStrengthen
  | familyPlanningStrategy
  | familyPlanningFocus
  | maternalHealth
  | childNutritionExisting
  | childNutritionFuture
  | urgentHighRisk
  | moderateMediumRisk
  | positiveLowRisk
  | ageGapConsideration (gap : ℚ)
  | cohabitationCommitment (years : ℚ)
  | previousRelationship (civil_status : String)
deriving Repr, DecidableEq

/-- Python `sorted(l, key=lambda x: x[1], reverse=True)`: stable descending
sort by the second component. -/
def sortByScoreDesc (l : List (String × ℚ)) : List (String × ℚ) :=
  l.mergeSort fun a b => decide (b.2 ≤ a.2)

/-- `np.mean` over a list (service.py:1021 takes the top-3 category scores;
the NaN it would produce on an empty list is outside this embedding). -/
def pyMean (l : List ℚ) : ℚ := l.sum / l.length

/-- Per-category focus entry of `generate_ml_recommendations`
(service.py:956-972): only categories scoring above 0.2 are listed, with the
4-tier priority. -/
def mlFocusEntry (p : String × ℚ) : List FocusCategory :=
  if p.2 > 1/5 then [{ name := p.1, score := p.2, priority := priority4 p.2 }]
  else []

/-- Per-category recommendation texts of `generate_ml_recommendations`
(service.py:974-997): branches on lowercased substring matches of the
category name. -/
def mlCategoryRecs (has_children : Bool) (children_count : ℚ)
    (p : String × ℚ) : List MLRec :=
  if p.2 > 1/5 then
    let category_lower := p.1.toLower
    if strContains category_lower "marriage" ∧ strContains category_lower "relationship" then
      (if p.2 > 7/10 then [MLRec.highPriorityMarriage] else []) ++ [MLRec.marriageFocus]
    else if strContains category_lower "responsible" ∧ strContains category_lower "parenthood" then
      (if has_children then [MLRec.parentingWithChildren children_count] else [])
        ++ [MLRec.parenthoodStrengthen]
    else if strContains category_lower "planning" ∧ strContains category_lower "family" then
      [MLRec.familyPlanningStrategy, MLRec.familyPlanningFocus]
    else if strContains category_lower "maternal" ∨ strContains category_lower "neonatal"
        ∨ strContains category_lower "child health" then
      [MLRec.maternalHealth]
        ++ (if has_children then [MLRec.childNutritionExisting]
            else [MLRec.childNutritionFuture])
    else []
  else []

/-- The dict returned by `generate_ml_recommendations` (service.py:1017-1023);
the constant `model_type`/`analysis_method` strings are omitted. -/
structure MLResult where
  recommendations : List MLRec
  focus_categories : List FocusCategory
  prediction_confidence : ℚ
deriving Repr, DecidableEq

/-- `generate_ml_recommendations` (service.py:933-1023): sorts categories by
descending score, emits per-category focus entries and recommendation texts,
inserts the risk-level headline at position 0, appends demographic-context
entries, and truncates the recommendation list to its first 8 entries. -/
def generate_ml_recommendations (meai_categories : List String)
    (couple_profile : CoupleProfileD) (risk_level : String)
    (category_scores : List ℚ) : MLResult :=
  let category_priorities := sortByScoreDesc (meai_categories.zip category_scores)
  let civil_status := couple_profile.civil_status
  let years_together := couple_profile.years_living_together
  let has_children := couple_profile.past_children
  let children_count := couple_profile.children
  let male_age := couple_profile.male_age
  let female_age := couple_profile.female_age
  let focus_categories := (category_priorities.map mlFocusEntry).flatten
  let recommendations :=
    (category_priorities.map (mlCategoryRecs has_children children_count)).flatten
  let riskRec : MLRec :=
    if risk_level = "High" then .urgentHighRisk
    else if risk_level = "Medium" then .moderateMediumRisk
    else .positiveLowRisk
  let age_gap := |male_age - female_age|
  let demographicRecs : List MLRec :=
    (if age_gap > 10 then [MLRec.ageGapConsideration age_gap] else [])
    ++ (if civil_status = "Living In" ∧ years_together > 5 then
          [MLRec.cohabitationCommitment years_together]
        else if civil_status = "Widowed" ∨ civil_status = "Separated"
            ∨ civil_status = "Divorced" then
          [MLRec.previousRelationship civil_status]
        else [])
  let recommendations := riskRec :: recommendations ++ demographicRecs
  { recommendations := recommendations.take 8
    focus_categories := focus_categories
    prediction_confidence := pyMean ((category_priorities.take 3).map fun p => p.2) }

/-! ## The analyze endpoint (`analyze`, service.py:1060-1213) -/

/-- The trained risk classifier artifact: `predict` yields the encoded class
index (the classifier is fitted on labels {0,1,2}, service.py:861-862), and
`predict_proba` the class-probability vector. -/
structure RiskModel where
  predict : List ℚ → Fin 3
  predict_proba : List ℚ → List ℚ

/-- The trained multi-output category regressor artifact. -/
structure CategoryModel where
  predict : List ℚ → List ℚ

/-- The global `ml_models` slot (service.py:120-124). -/
structure MLModels where
  risk_model : Option RiskModel
  category_model : Option CategoryModel
  risk_encoder : Option Unit

/-- The request payload consumed by `analyze` (service.py:1064-1093), after
the web layer's JSON defaulting. -/
structure AnalyzeInput where
  male_age : ℚ
  female_age : ℚ
  civil_status : String
  years_living_together : ℚ
  past_children : Bool
  children : ℚ
  education_level : ℚ
  income_level : ℚ
  questionnaire_responses : List ℤ
  personalized_features : Option PersonalizedFeatures
  male_responses : List ℤ
  female_responses : List ℤ

/-- The JSON body produced by `analyze`: on the error paths only `status`
and `message` are present (service.py:1138-1141, 1152-1155); the success
body (service.py:1195-1207) carries the prediction results.  Constant
metadata fields (`couple_id`, `analysis_method`, `generated_at`, the
reasoning strings) are omitted. -/
structure AnalyzeResponse where
  status : String
  message : Option String
  risk_level : Option String
  category_scores : Option (List ℚ)
  focus_categories : Option (List FocusCategory)
  recommendations : Option (List RB)
  ml_confidence : Option ℚ

/-- `np.max` over a probability vector (service.py:1145); `predict_proba`
always yields one probability per class. -/
def pyMax (l : List ℚ) : ℚ := l.foldl max (l.headD 0)

/-- `risk_levels[risk_prediction]` (service.py:1134-1135). -/
def riskLevelName (i : Fin 3) : String :=
  (["Low", "Medium", "High"] : List String).get ⟨i.1, i.2⟩

/-- Python `sorted(focus_categories, key=lambda x: x['score'], reverse=True)`
(service.py:1200). -/
def sortFocusDesc (l : List FocusCategory) : List FocusCategory :=
  l.mergeSort fun a b => decide (b.score ≤ a.score)

/-- The `analyze` endpoint (service.py:1060-1213).  Profile normalization
zeroes `years_living_together` outside `Living In` status and `children`
without `past_children` (service.py:1079-1084); personalized features are
computed when not supplied (service.py:1101-1102); a missing risk or
category model aborts with an error body carrying no prediction fields
(service.py:1132-1141, 1148-1155).  The optional external narrative
generator is absent from this repository, so recommendations always come
from the rule-based fallback (service.py:1246-1252). -/
def analyze (models : MLModels) (meai_categories : List String)
    (inp : AnalyzeInput) : AnalyzeResponse :=
  let couple_profile : CoupleProfileD :=
    { male_age := inp.male_age
      female_age := inp.female_age
      civil_status := inp.civil_status
      years_living_together :=
        if inp.civil_status ≠ "Living In" then 0 else inp.years_living_together
      past_children := inp.past_children
      children := if ¬inp.past_children then 0 else inp.children
      education_level := inp.education_level
      income_level := inp.income_level }
  let personalized_features :=
    match inp.personalized_features with
    | some p => p
    | none =>
        calculate_personalized_features_flask inp.questionnaire_responses
          inp.male_responses inp.female_responses
  let features := assemble_features_inference couple_profile
    (inp.questionnaire_responses.map fun r => (r : ℚ)) personalized_features.values
  match models.risk_model with
  | none =>
      { status := "error"
        message := some "Risk model not loaded. Train or load models first."
        risk_level := none, category_scores := none, focus_categories := none
        recommendations := none, ml_confidence := none }
  | some risk_model =>
    let risk_prediction := risk_model.predict features
    let risk_level := riskLevelName risk_prediction
    let risk_probs := risk_model.predict_proba features
    let ml_confidence := clip01 (pyMax risk_probs)
    match models.category_model with
    | none =>
        { status := "error"
          message := some "Category model not loaded. Train or load models first."
          risk_level := none, category_scores := none, focus_categories := none
          recommendations := none, ml_confidence := none }
    | some category_model =>
      let category_scores := (category_model.predict features).map clip01
      let focus_categories := (meai_categories.zip category_scores).map fun p =>
        { name := p.1, score := p.2, priority := priority3 p.2 : FocusCategory }
      let personalized_recommendations := generate_rule_based_recommendations
        risk_level category_scores focus_categories personalized_features
        inp.male_responses inp.female_responses
      { status := "success"
        message := none
        risk_level := some risk_level
        category_scores := some category_scores
        focus_categories := some (sortFocusDesc focus_categories)
        recommendations := some personalized_recommendations
        ml_confidence := some ml_confidence }

/-! ## Helper lemmas -/

lemma natAbs_cast_q (n : ℤ) : ((n.natAbs : ℚ)) = |(n : ℚ)| := by
  rw [Int.cast_natAbs, Int.cast_abs]

lemma alignTerm_eq (p : ℤ × ℤ) :
    alignTerm p = ((4 : ℚ) - |(p.1 : ℚ) - (p.2 : ℚ)|) / 4 := by
  unfold alignTerm
  rw [natAbs_cast_q]
  push_cast
  ring

lemma alignTerm_le_one (p : ℤ × ℤ) : alignTerm p ≤ 1 := by
  unfold alignTerm
  have h : (0 : ℚ) ≤ ((p.1 - p.2).natAbs : ℚ) := by positivity
  linarith

lemma alignTerm_nonneg_of_valid (p : ℤ × ℤ)
    (h1 : p.1 ∈ ([2, 3, 4] : List ℤ)) (h2 : p.2 ∈ ([2, 3, 4] : List ℤ)) :
    0 ≤ alignTerm p := by
  simp only [List.mem_cons, List.not_mem_nil, or_false] at h1 h2
  rcases h1 with h1 | h1 | h1 <;> rcases h2 with h2 | h2 | h2 <;>
    norm_num [alignTerm, h1, h2]

lemma zip_length_pos {m f : List ℤ} (hm : m ≠ []) (hf : f ≠ []) :
    0 < (m.zip f).length := by
  rw [List.length_zip]
  exact lt_min (List.length_pos.mpr hm) (List.length_pos.mpr hf)

/-- When both partner lists are nonempty, `alignment_score` is the sum of the
per-pair alignment terms divided by the number of compared pairs. -/
lemma alignment_score_eq (qr m f : List ℤ) (hm : m ≠ []) (hf : f ≠ []) :
    (calculate_personalized_features_flask qr m f).alignment_score
      = ((m.zip f).map alignTerm).sum / (m.zip f).length := by
  have hcond : m ≠ [] ∧ f ≠ [] := ⟨hm, hf⟩
  simp only [calculate_personalized_features_flask, if_pos hcond]
  rw [if_pos (zip_length_pos hm hf)]

/-! ## Claim theorems -/

/-- C9: `calculate_consistency` returns `max(0, 1 - variance/4)` for
sequences of length at least 2, and exactly `1.0` for every shorter
sequence, including the empty sequence and any singleton `[x]`. -/
theorem C9_consistency_contract (seq : List ℤ) (x : ℤ) :
    (seq.length < 2 → calculate_consistency seq = 1)
    ∧ (2 ≤ seq.length →
        calculate_consistency seq = max 0 (1 - listVariance seq / 4))
    ∧ calculate_consistency [] = 1
    ∧ calculate_consistency [x] = 1 := by
  refine ⟨fun h => ?_, fun h => ?_, ?_, ?_⟩
  · rw [calculate_consistency, if_pos h]
  · rw [calculate_consistency, if_neg (by omega)]
  · rfl
  · rfl

theorem C9_consistency_contract_witness :
    calculate_consistency [9] = 1
    ∧ calculate_consistency [2, 4] = max 0 (1 - listVariance [2, 4] / 4)
    ∧ calculate_consistency [] = 1
    ∧ calculate_consistency [7] = 1 :=
  ⟨(C9_consistency_contract [9] 0).1 (by decide),
    (C9_consistency_contract [2, 4] 0).2.1 (by decide),
    (C9_consistency_contract [] 7).2.2.1,
    (C9_consistency_contract [] 7).2.2.2⟩

/-- C1: for nonempty partner response sequences, `alignment_score` is the
mean over compared indices of `(4 - |male[i] - female[i]|) / 4`; it is `1.0`
when the compared prefixes are identical; it lies in `[0,1]` whenever the
compared responses take values in `{2,3,4}`; and it defaults to `0.5` when
no comparable pairs exist (which in
`calculate_personalized_features_flask` happens exactly when a partner list
is missing and the flat questionnaire list is empty). -/
theorem C1_alignment_score_contract :
    (∀ qr m f : List ℤ, m ≠ [] → f ≠ [] →
      (calculate_personalized_features_flask qr m f).alignment_score
        = ((m.zip f).map fun p => ((4 : ℚ) - |(p.1 : ℚ) - (p.2 : ℚ)|) / 4).sum
            / (m.zip f).length)
    ∧ (∀ qr m f : List ℤ, m ≠ [] → f ≠ [] → (∀ p ∈ m.zip f, p.1 = p.2) →
      (calculate_personalized_features_flask qr m f).alignment_score = 1)
    ∧ (∀ qr m f : List ℤ, m ≠ [] → f ≠ [] →
      (∀ p ∈ m.zip f, p.1 ∈ ([2, 3, 4] : List ℤ) ∧ p.2 ∈ ([2, 3, 4] : List ℤ)) →
      0 ≤ (calculate_personalized_features_flask qr m f).alignment_score
        ∧ (calculate_personalized_features_flask qr m f).alignment_score ≤ 1)
    ∧ (∀ qr m f : List ℤ, (m = [] ∨ f = []) → qr = [] →
      (calculate_personalized_features_flask qr m f).alignment_score = 1/2) := by
  refine ⟨?_, ?_, ?_, ?_⟩
  · intro qr m f hm hf
    rw [alignment_score_eq qr m f hm hf]
    congr 1
    exact congrArg List.sum (List.map_congr_left fun p _ => alignTerm_eq p)
  · intro qr m f hm hf hid
    rw [alignment_score_eq qr m f hm hf]
    have hlen := zip_length_pos hm hf
    have hsum : ((m.zip f).map alignTerm).sum = ((m.zip f).length : ℚ) := by
      rw [List.sum_eq_card_nsmul ((m.zip f).map alignTerm) 1 ?_]
      · simp
      · intro x hx
        obtain ⟨p, hp, rfl⟩ := List.mem_map.mp hx
        have hpe := hid p hp
        simp [alignTerm, hpe]
    rw [hsum, div_self (by exact_mod_cast hlen.ne.symm)]
  · intro qr m f hm hf hval
    rw [alignment_score_eq qr m f hm hf]
    have hlen := zip_length_pos hm hf
    have hlenq : (0 : ℚ) < ((m.zip f).length : ℚ) := by exact_mod_cast hlen
    constructor
    · apply div_nonneg _ hlenq.le
      apply List.sum_nonneg
      intro x hx
      obtain ⟨p, hp, rfl⟩ := List.mem_map.mp hx
      exact alignTerm_nonneg_of_valid p (hval p hp).1 (hval p hp).2
    · rw [div_le_one hlenq]
      calc ((m.zip f).map alignTerm).sum
          ≤ ((m.zip f).map alignTerm).length • (1 : ℚ) := by
            refine List.sum_le_card_nsmul _ 1 ?_
            intro x hx
            obtain ⟨p, _, rfl⟩ := List.mem_map.mp hx
            exact alignTerm_le_one p
        _ = ((m.zip f).length : ℚ) := by simp
  · intro qr m f hmf hqr
    subst hqr
    rcases hmf with rfl | rfl
    · simp [calculate_personalized_features_flask]
    · simp [calculate_personalized_features_flask]

theorem C1_alignment_score_contract_witness :
    (calculate_personalized_features_flask [] [4, 3] [2, 3]).alignment_score
      = ((([4, 3] : List ℤ).zip ([2, 3] : List ℤ)).map
          fun p => ((4 : ℚ) - |(p.1 : ℚ) - (p.2 : ℚ)|) / 4).sum
        / (([4, 3] : List ℤ).zip ([2, 3] : List ℤ)).length
    ∧ (calculate_personalized_features_flask [] [2, 3, 4] [2, 3, 4]).alignment_score = 1
    ∧ (0 ≤ (calculate_personalized_features_flask [] [2, 4] [4, 2]).alignment_score
        ∧ (calculate_personalized_features_flask [] [2, 4] [4, 2]).alignment_score ≤ 1)
    ∧ (calculate_personalized_features_flask [] [] [3]).alignment_score = 1/2 :=
  ⟨C1_alignment_score_contract.1 [] [4, 3] [2, 3] (by decide) (by decide),
    C1_alignment_score_contract.2.1 [] [2, 3, 4] [2, 3, 4]
      (by decide) (by decide) (by decide),
    C1_alignment_score_contract.2.2.1 [] [2, 4] [4, 2]
      (by decide) (by decide) (by decide),
    C1_alignment_score_contract.2.2.2 [] [] [3] (Or.inl rfl) rfl⟩

/-- C2 counterexample: at `male = [4,4,4,4]`, `female = [2,2,2,2]` the code
does NOT return `alignment_score = 0` (each compared pair contributes
`(4 - 2)/4 = 0.5`, so the mean is `0.5`), refuting the claimed
`alignment_score = 0.0 ∧ conflict_ratio = 1.0`. -/
theorem C2_counterexample :
    ¬((calculate_personalized_features_flask [] [4, 4, 4, 4] [2, 2, 2, 2]).alignment_score = 0
      ∧ (calculate_personalized_features_flask [] [4, 4, 4, 4] [2, 2, 2, 2]).conflict_ratio = 1) := by
  intro hcl
  have h1 : (calculate_personalized_features_flask
      [] [4, 4, 4, 4] [2, 2, 2, 2]).alignment_score = 1/2 := by
    simp +decide only [calculate_personalized_features_flask]
    norm_num [alignTerm]
  rw [hcl.1] at h1
  norm_num at h1

/-- C2 amended: for `male = [4,4,4,4]`, `female = [2,2,2,2]` the code
returns `alignment_score = 0.5` (every index has `|difference| = 2`, each
contributing alignment term `0.5`) and `conflict_ratio = 1.0` (each index
contributes conflict weight `1.0`). -/
theorem C2_scenario_amended :
    (calculate_personalized_features_flask [] [4, 4, 4, 4] [2, 2, 2, 2]).alignment_score = 1/2
    ∧ (calculate_personalized_features_flask [] [4, 4, 4, 4] [2, 2, 2, 2]).conflict_ratio = 1 := by
  constructor <;>
    · simp +decide only [calculate_personalized_features_flask]
      norm_num [alignTerm, conflictWeight]

/-- C4: when either model artifact is absent, `analyze` returns an error
body in which `risk_level`, `category_scores` and `recommendations` are all
absent, never reaching recommendation generation. -/
theorem C4_model_gate (models : MLModels) (meai : List String)
    (inp : AnalyzeInput)
    (h : models.risk_model = none ∨ models.category_model = none) :
    (analyze models meai inp).status = "error"
    ∧ (analyze models meai inp).risk_level = none
    ∧ (analyze models meai inp).category_scores = none
    ∧ (analyze models meai inp).recommendations = none := by
  rcases h with h | h
  · simp [analyze, h]
  · cases hr : models.risk_model with
    | none => simp [analyze, hr]
    | some rm => simp [analyze, hr, h]

theorem C4_model_gate_witness :
    ((none : Option RiskModel) = none ∨ (none : Option CategoryModel) = none)
    ∧ (analyze ⟨none, none, none⟩ []
        ⟨30, 28, "Single", 0, false, 0, 2, 2, [], none, [], []⟩).status = "error"
    ∧ (analyze ⟨none, none, none⟩ []
        ⟨30, 28, "Single", 0, false, 0, 2, 2, [], none, [], []⟩).risk_level = none
    ∧ (analyze ⟨none, none, none⟩ []
        ⟨30, 28, "Single", 0, false, 0, 2, 2, [], none, [], []⟩).category_scores = none
    ∧ (analyze ⟨none, none, none⟩ []
        ⟨30, 28, "Single", 0, false, 0, 2, 2, [], none, [], []⟩).recommendations = none := by
  refine ⟨Or.inl rfl, ?_, ?_, ?_, ?_⟩
  · exact (C4_model_gate ⟨none, none, none⟩ []
      ⟨30, 28, "Single", 0, false, 0, 2, 2, [], none, [], []⟩ (Or.inl rfl)).1
  · exact (C4_model_gate ⟨none, none, none⟩ []
      ⟨30, 28, "Single", 0, false, 0, 2, 2, [], none, [], []⟩ (Or.inl rfl)).2.1
  · exact (C4_model_gate ⟨none, none, none⟩ []
      ⟨30, 28, "Single", 0, false, 0, 2, 2, [], none, [], []⟩ (Or.inl rfl)).2.2.1
  · exact (C4_model_gate ⟨none, none, none⟩ []
      ⟨30, 28, "Single", 0, false, 0, 2, 2, [], none, [], []⟩ (Or.inl rfl)).2.2.2

/-- C5: on `[0,1]`, the 3-tier scheme of `analyze` assigns High iff
score > 0.6, Moderate iff 0.3 < score ≤ 0.6 and Low iff score ≤ 0.3 (so
score exactly 0.3 is Low), while the 4-tier scheme of
`generate_ml_recommendations` assigns Critical iff score > 0.7, High iff
0.4 < score ≤ 0.7 and Moderate iff 0.2 < score ≤ 0.4; the schemes disagree,
e.g. at score 0.25. -/
theorem C5_priority_schemes (s : ℚ) (h0 : 0 ≤ s) (h1 : s ≤ 1) :
    (priority3 s = "High" ↔ 3/5 < s)
    ∧ (priority3 s = "Moderate" ↔ 3/10 < s ∧ s ≤ 3/5)
    ∧ (priority3 s = "Low" ↔ s ≤ 3/10)
    ∧ (priority4 s = "Critical" ↔ 7/10 < s)
    ∧ (priority4 s = "High" ↔ 2/5 < s ∧ s ≤ 7/10)
    ∧ (priority4 s = "Moderate" ↔ 1/5 < s ∧ s ≤ 2/5)
    ∧ priority3 (3/10 : ℚ) = "Low"
    ∧ priority3 (1/4 : ℚ) = "Low" ∧ priority4 (1/4 : ℚ) = "Moderate" := by
  refine ⟨?_, ?_, ?_, ?_, ?_, ?_, ?_, ?_, ?_⟩ <;>
    simp only [priority3, priority4] <;>
    split_ifs <;>
    simp_all <;>
    intros <;>
    linarith

theorem C5_priority_schemes_witness :
    ((priority3 (1/2 : ℚ) = "High" ↔ 3/5 < (1/2 : ℚ))
      ∧ (priority3 (1/2 : ℚ) = "Moderate" ↔ 3/10 < (1/2 : ℚ) ∧ (1/2 : ℚ) ≤ 3/5)
      ∧ (priority3 (1/2 : ℚ) = "Low" ↔ (1/2 : ℚ) ≤ 3/10)
      ∧ (priority4 (1/2 : ℚ) = "Critical" ↔ 7/10 < (1/2 : ℚ))
      ∧ (priority4 (1/2 : ℚ) = "High" ↔ 2/5 < (1/2 : ℚ) ∧ (1/2 : ℚ) ≤ 7/10)
      ∧ (priority4 (1/2 : ℚ) = "Moderate" ↔ 1/5 < (1/2 : ℚ) ∧ (1/2 : ℚ) ≤ 2/5)
      ∧ priority3 (3/10 : ℚ) = "Low"
      ∧ priority3 (1/4 : ℚ) = "Low" ∧ priority4 (1/4 : ℚ) = "Moderate") :=
  C5_priority_schemes (1/2) (by norm_num) (by norm_num)

/-- C6: the synthetic risk label is derived from the disagree-response
fraction with mode-dependent thresholds: generic mode uses 0.35 / 0.15 and
patterned mode uses 0.3 / 0.15, each with High / Medium / Low assigned by
an exhaustive threshold chain. -/
theorem C6_synthetic_risk_thresholds (responses : List ℤ) (h : responses ≠ []) :
    (syntheticRiskLevelGeneric responses = "High"
      ↔ 7/20 < disagreeRatio responses)
    ∧ (syntheticRiskLevelGeneric responses = "Medium"
      ↔ 3/20 < disagreeRatio responses ∧ disagreeRatio responses ≤ 7/20)
    ∧ (syntheticRiskLevelGeneric responses = "Low"
      ↔ disagreeRatio responses ≤ 3/20)
    ∧ (syntheticRiskLevelPatterned responses = "High"
      ↔ 3/10 < disagreeRatio responses)
    ∧ (syntheticRiskLevelPatterned responses = "Medium"
      ↔ 3/20 < disagreeRatio responses ∧ disagreeRatio responses ≤ 3/10)
    ∧ (syntheticRiskLevelPatterned responses = "Low"
      ↔ disagreeRatio responses ≤ 3/20) := by
  refine ⟨?_, ?_, ?_, ?_, ?_, ?_⟩ <;>
    simp only [syntheticRiskLevelGeneric, syntheticRiskLevelPatterned] <;>
    split_ifs <;>
    simp_all <;>
    linarith

theorem C6_synthetic_risk_thresholds_witness :
    ([2, 2, 3, 4] : List ℤ) ≠ []
    ∧ (syntheticRiskLevelGeneric [2, 2, 3, 4] = "High"
        ↔ 7/20 < disagreeRatio [2, 2, 3, 4]) :=
  ⟨by decide, (C6_synthetic_risk_thresholds [2, 2, 3, 4] (by decide)).1⟩

/-- C7: the feature vector is the fixed-order concatenation of six
demographic fields, the questionnaire responses and the eight personalized
values; the training-time and inference-time assemblies agree, and for `N`
responses the vector has exactly `6 + N + 8 = N + 14` entries. -/
theorem C7_feature_vector_invariant (profile : CoupleProfileD)
    (responses : List ℚ) (pv : PersonalizedValues) (N : ℕ)
    (h : responses.length = N) :
    assemble_features_inference profile responses pv
      = [profile.male_age, profile.female_age, profile.years_living_together,
          profile.children, profile.education_level, profile.income_level]
        ++ responses
        ++ [pv.alignment_score, pv.conflict_ratio, pv.male_avg_response,
            pv.female_avg_response, pv.male_consistency, pv.female_consistency,
            pv.power_balance, pv.response_variance]
    ∧ assemble_features_inference profile responses pv
      = assemble_features_training profile responses pv
    ∧ (assemble_features_inference profile responses pv).length = N + 14
    ∧ (assemble_features_training profile responses pv).length = N + 14 := by
  refine ⟨rfl, ?_, ?_, ?_⟩
  · simp [assemble_features_inference, assemble_features_training]
  · simp [assemble_features_inference, h]
  · simp [assemble_features_training, h]

lemma riskBlock_length_pos (risk_level : String) (conflict_ratio : ℚ) :
    1 ≤ (riskBlock risk_level conflict_ratio).length := by
  unfold riskBlock
  split_ifs <;> simp

/-- C10: the rule-based generator always returns at least 7 entries: the
alignment, couple-optimism, conflict, male-consistency, female-consistency,
risk-level and response-variance sections each contribute at least one
entry on every input. -/
theorem C10_rule_based_min_length (risk_level : String)
    (category_scores : List ℚ) (focus_categories : List FocusCategory)
    (pf : PersonalizedFeatures) (male_responses female_responses : List ℤ) :
    7 ≤ (generate_rule_based_recommendations risk_level category_scores
      focus_categories pf male_responses female_responses).length := by
  have h := riskBlock_length_pos risk_level pf.conflict_ratio
  simp only [generate_rule_based_recommendations, List.length_append,
    List.length_singleton]
  omega

/-- C3 counterexample: a concrete input on which the rule-based fallback
returns 10 recommendations, exceeding the claimed cap of 8 (the `[:8]`
truncation exists only in the never-invoked `generate_ml_recommendations`,
not in the serving fallback `generate_rule_based_recommendations`). -/
theorem C3_counterexample :
    8 < (generate_rule_based_recommendations "High" [] []
      { alignment_score := 9/10, conflict_ratio := 0, male_avg_response := 3,
        female_avg_response := 3, male_consistency := 9/10,
        female_consistency := 9/10, power_balance := 1, response_variance := 0,
        total_conflicts := 0 }
      [4, 4, 4, 4] [4, 4, 4, 4]).length := by
  norm_num [generate_rule_based_recommendations, alignmentRec, optimismRec,
    conflictRec, powerBlock, maleConsistencyRec, femaleConsistencyRec,
    positivityBlock, riskBlock, categoryRecs, varianceRec, pyInt]

/-- C3 amended: only the `generate_ml_recommendations` path truncates its
list to at most 8 entries; the rule-based fallback path imposes no cap and
can exceed 8. -/
theorem C3_recommendation_cap_amended :
    (∀ (meai_categories : List String) (couple_profile : CoupleProfileD)
        (risk_level : String) (category_scores : List ℚ),
      (generate_ml_recommendations meai_categories couple_profile risk_level
        category_scores).recommendations.length ≤ 8)
    ∧ ∃ (risk_level : String) (category_scores : List ℚ)
        (focus_categories : List FocusCategory) (pf : PersonalizedFeatures)
        (male_responses female_responses : List ℤ),
        8 < (generate_rule_based_recommendations risk_level category_scores
          focus_categories pf male_responses female_responses).length := by
  constructor
  · intro meai_categories couple_profile risk_level category_scores
    simp only [generate_ml_recommendations]
    exact List.length_take_le _ _
  · refine ⟨"High", [], [],
      { alignment_score := 9/10, conflict_ratio := 0, male_avg_response := 3,
        female_avg_response := 3, male_consistency := 9/10,
        female_consistency := 9/10, power_balance := 1, response_variance := 0,
        total_conflicts := 0 },
      [4, 4, 4, 4], [4, 4, 4, 4], ?_⟩
    norm_num [generate_rule_based_recommendations, alignmentRec, optimismRec,
      conflictRec, powerBlock, maleConsistencyRec, femaleConsistencyRec,
      positivityBlock, riskBlock, categoryRecs, varianceRec, pyInt]

/-- C8 counterexample: on a concrete input the first element of the
rule-based recommendation list is the alignment commentary, not the
risk-level headline; the headline appears, but later in the list. -/
theorem C8_counterexample :
    (generate_rule_based_recommendations "High" [] []
        { alignment_score := 1/5, conflict_ratio := 3/5, male_avg_response := 2,
          female_avg_response := 2, male_consistency := 1/2,
          female_consistency := 1/2, power_balance := 1, response_variance := 1,
          total_conflicts := 3 }
        [2, 2] [2, 2]).head? = some (RB.criticalAlignment 20)
    ∧ (generate_rule_based_recommendations "High" [] []
        { alignment_score := 1/5, conflict_ratio := 3/5, male_avg_response := 2,
          female_avg_response := 2, male_consistency := 1/2,
          female_consistency := 1/2, power_balance := 1, response_variance := 1,
          total_conflicts := 3 }
        [2, 2] [2, 2]).head? ≠ some RB.highRiskProfile
    ∧ RB.highRiskProfile ∈ generate_rule_based_recommendations "High" [] []
        { alignment_score := 1/5, conflict_ratio := 3/5, male_avg_response := 2,
          female_avg_response := 2, male_consistency := 1/2,
          female_consistency := 1/2, power_balance := 1, response_variance := 1,
          total_conflicts := 3 }
        [2, 2] [2, 2] := by
  have hlist : generate_rule_based_recommendations "High" [] []
      { alignment_score := 1/5, conflict_ratio := 3/5, male_avg_response := 2,
        female_avg_response := 2, male_consistency := 1/2,
        female_consistency := 1/2, power_balance := 1, response_variance := 1,
        total_conflicts := 3 }
      [2, 2] [2, 2]
      = [RB.criticalAlignment 20, RB.concerningHarmony 0, RB.highConflict 60,
          RB.balancedPartnership 1, RB.maleUncertainty 50,
          RB.femaleUncertainty 50, RB.maleConcerns 0, RB.femaleConcerns 0,
          RB.highRiskProfile, RB.crisisIntervention 60,
          RB.balancedDiversity 1] := by
    norm_num [generate_rule_based_recommendations, alignmentRec, optimismRec,
      conflictRec, powerBlock, maleConsistencyRec, femaleConsistencyRec,
      positivityBlock, riskBlock, categoryRecs, varianceRec, pyInt]
  rw [hlist]
  refine ⟨rfl, ?_, ?_⟩
  · simp
  · simp

/-- C8 amended: the rule-based generator's ordered list starts with the
alignment commentary and continues with couple-optimism, conflict,
optional power-balance, male and female consistency (always emitted),
optional partner-positivity, the risk-level block, per-category severity
and response-variance commentary, in that order; the risk-level headline is
not the first element. -/
theorem C8_rule_based_order_amended (risk_level : String)
    (category_scores : List ℚ) (focus_categories : List FocusCategory)
    (pf : PersonalizedFeatures) (male_responses female_responses : List ℤ) :
    generate_rule_based_recommendations risk_level category_scores
        focus_categories pf male_responses female_responses
      = [alignmentRec pf.alignment_score]
        ++ [optimismRec
              (((if 0 < male_responses.length then
                  ((male_responses.filter fun r => 4 ≤ r).length : ℚ)
                    / male_responses.length else 0)
                + (if 0 < male_responses.length then
                  ((female_responses.filter fun r => 4 ≤ r).length : ℚ)
                    / male_responses.length else 0)) / 2)]
        ++ [conflictRec pf.conflict_ratio]
        ++ powerBlock pf.power_balance pf.alignment_score pf.male_avg_response
            pf.female_avg_response
        ++ [maleConsistencyRec pf.male_consistency]
        ++ [femaleConsistencyRec pf.female_consistency]
        ++ positivityBlock
            (if 0 < male_responses.length then
              ((male_responses.filter fun r => 4 ≤ r).length : ℚ)
                / male_responses.length else 0)
            (if 0 < male_responses.length then
              ((female_responses.filter fun r => 4 ≤ r).length : ℚ)
                / male_responses.length else 0)
        ++ riskBlock risk_level pf.conflict_ratio
        ++ (focus_categories.map categoryRecs).flatten
        ++ [varianceRec pf.response_variance]
    ∧ (generate_rule_based_recommendations risk_level category_scores
        focus_categories pf male_responses female_responses).head?
      = some (alignmentRec pf.alignment_score) := by
  constructor
  · rfl
  · simp [generate_rule_based_recommendations]

theorem C7_feature_vector_invariant_witness :
    (([(3 : ℚ), 3] : List ℚ).length = 2)
    ∧ (assemble_features_inference
        { male_age := 30, female_age := 28, civil_status := "Single",
          years_living_together := 0, past_children := false, children := 0,
          education_level := 2, income_level := 2 }
        [(3 : ℚ), 3]
        { alignment_score := 1, conflict_ratio := 0, male_avg_response := 3,
          female_avg_response := 3, male_consistency := 1,
          female_consistency := 1, power_balance := 1,
          response_variance := 0 }).length = 2 + 14 :=
  ⟨by decide,
    (C7_feature_vector_invariant
      { male_age := 30, female_age := 28, civil_status := "Single",
        years_living_together := 0, past_children := false, children := 0,
        education_level := 2, income_level := 2 }
      [(3 : ℚ), 3]
      { alignment_score := 1, conflict_ratio := 0, male_avg_response := 3,
        female_avg_response := 3, male_consistency := 1,
        female_consistency := 1, power_balance := 1, response_variance := 0 }
      2 (by decide)).2.2.1⟩

end PMOC
